import Mathlib

/-!
# gstreamermm examples and plugin fixtures: a verification development

The four source files are short sequences of calls into the GStreamer
object model.  Each one is embedded as a pure function from the answers the
library gives (which objects could be created, what a push or a link
returned, which messages arrive on the bus) to a `Run`: the list of library
calls and output lines the code issues, in order, and the way the function
ends.

Conventions shared by all four embeddings:

* `Glib::RefPtr<T>` is `RefPtr T = Option T`; the empty pointer is `none`.
* `p->member(...)` in the source on an empty `RefPtr` ends the run with
  `Outcome.nullDeref`; passing an empty `RefPtr` as an argument does not.
* a library call whose result the source discards is recorded as an event
  and nothing more.
-/

namespace Gst

/-- A `Glib::RefPtr<T>`: either empty or holding an object. -/
abbrev RefPtr (α : Type) := Option α

/-- How a function ends: it returns a value, it applies `->` to an empty
`RefPtr`, an `assert` fails, or it waits for ever inside the main loop. -/
inductive Outcome (α : Type) where
  | returned (value : α)
  | nullDeref
  | assertFailed
  | blocked
  deriving DecidableEq, Repr

/-- The calls issued (oldest first) and the way the function ended. -/
structure Run (ε α : Type) where
  trace : List ε
  outcome : Outcome α
  deriving DecidableEq, Repr

/-- An element as the source sees it: the factory that made it and the name
passed at creation (`none` when the source passes no name). -/
structure Element where
  factory : String
  name : Option String
  deriving DecidableEq, Repr

/-- A pad obtained with `get_static_pad(name)` from an element. -/
structure Pad where
  owner : Element
  name : String
  deriving DecidableEq, Repr

/-- Modelled from the spec: the element factory is in the wrapped library,
not under src/; creation of an element returns either the element or null.
The argument `available` tells which factories can make an element. -/
def create_element (available : String → Bool) (factory : String)
    (name : Option String) : RefPtr Element :=
  if available factory then some ⟨factory, name⟩ else none

end Gst

/-! ## tests/plugins/test-foo.h -/

namespace TestFoo

open Gst

/-- One `guint8` of buffer data. -/
abbrev Byte := Fin 256

/-- A `Gst::Buffer`: its bytes and the reference count of the mini object. -/
structure Buffer where
  data : List Byte
  refcount : Nat
  deriving DecidableEq, Repr

/-- A `Gst::MapInfo`: `get_data()`, `get_size()`, and whether it currently
maps buffer memory.  A fresh `MapInfo` maps nothing and has size 0. -/
structure MapInfo where
  data : List Byte
  size : Nat
  mapped : Bool
  deriving DecidableEq, Repr

/-- The C enum `GstFlowReturn`; the values are kept as integers. -/
abbrev FlowReturn := Int

/-- The fresh object of `new Gst::MapInfo()`. -/
def MapInfo.new : MapInfo := ⟨[], 0, false⟩

/-- Modelled from the spec: `Buffer::create_writable` is not under src/ (the
"buffer memory-mapping/ownership model" is the wrapped library's); a buffer
that is the only reference to its data is returned as is, otherwise a copy
with a single reference is made. -/
def create_writable (buf : Buffer) : Buffer :=
  if buf.refcount = 1 then buf else { data := buf.data, refcount := 1 }

/-- Modelled from the spec: `Buffer::map(mapinfo, MAP_WRITE)` is not under
src/; mapping for writing needs a writable buffer (a single reference); on
success the whole data is mapped, on failure the `MapInfo` is left as it
was.  The source discards the boolean. -/
def map (buf : Buffer) (mapinfo : MapInfo) : MapInfo × Bool :=
  if buf.refcount = 1 then (⟨buf.data, buf.data.length, true⟩, true)
  else (mapinfo, false)

/-- Modelled from the spec: `Buffer::unmap(mapinfo)` is not under src/; the
mapped region is the buffer's memory, so what was written through the
mapping is the buffer's data afterwards. -/
def unmap (buf : Buffer) (mapinfo : MapInfo) : Buffer :=
  if mapinfo.mapped then { buf with data := mapinfo.data } else buf

/-- Insertion of one byte into an ordered run, comparing with `operator<`
as `std::sort` does. -/
def insertByte (b : Byte) : List Byte → List Byte
  | [] => [b]
  | a :: rest => if b < a then b :: a :: rest else a :: insertByte b rest

/-- Modelled from the spec: `std::sort(first, last)` is the C++ standard
library's, not under src/; the callback is to "sort bytes in place".  It is
modelled on a whole range by an insertion sort with the same comparison. -/
def std_sort : List Byte → List Byte
  | [] => []
  | a :: rest => insertByte a (std_sort rest)

/-- The call `std::sort(data, data + size)`: sorts the first `size` bytes in
place and leaves the rest alone. -/
def sort_range (data : List Byte) (size : Nat) : List Byte :=
  std_sort (data.take size) ++ data.drop size

/-- What `chain` does to the outside: buffers pushed on `srcpad`. -/
inductive Event where
  | push (buf : Buffer)
  deriving DecidableEq, Repr

/-- The answer of the downstream peer to `srcpad->push(buf)`. -/
structure Env where
  push : Buffer → FlowReturn

/-- The method `Foo::chain` (test-foo.h lines 40-50). -/
def chain (env : Env) (buf : Buffer) : Run Event FlowReturn :=
  let buf := create_writable buf
  if buf.refcount ≠ 1 then ⟨[], Outcome.assertFailed⟩ else
  let mapinfo := MapInfo.new
  let mapinfo := (map buf mapinfo).1
  let mapinfo := { mapinfo with data := sort_range mapinfo.data mapinfo.size }
  let buf := unmap buf mapinfo
  if buf.refcount ≠ 1 then ⟨[], Outcome.assertFailed⟩ else
  ⟨[Event.push buf], Outcome.returned (env.push buf)⟩

/-- The buffers pushed on the source pad during a run. -/
def pushed (r : Run Event FlowReturn) : List Buffer :=
  r.trace.map fun e => match e with | Event.push b => b

end TestFoo

/-! ## examples/ogg_rewriter/main.cc -/

namespace OggRewriter

open Gst

/-- The C flag enum `Gst::MessageType`; the values are kept as numbers. -/
abbrev MessageType := Nat

/-- Modelled from the spec: the enumerator is declared in the wrapper's
headers, which are not under src/; `MESSAGE_EOS = (1 << 0)`. -/
def MESSAGE_EOS : MessageType := 1

/-- Modelled from the spec: the enumerator is declared in the wrapper's
headers, which are not under src/; `MESSAGE_ERROR = (1 << 1)`. -/
def MESSAGE_ERROR : MessageType := 2

/-- A `Gst::Message`, of which the source reads `get_message_type()`. -/
structure Message where
  type : MessageType
  deriving DecidableEq, Repr

/-- The `Gst::State` values, in the order of the C enum. -/
inductive State where
  | STATE_VOID_PENDING
  | STATE_NULL
  | STATE_READY
  | STATE_PAUSED
  | STATE_PLAYING
  deriving DecidableEq, Repr

/-- The `Glib::MainLoop` object behind the global `mainloop`. -/
inductive MainLoop where
  | mk
  deriving DecidableEq, Repr

/-- The macro `EXIT_SUCCESS` of `<stdlib.h>`. -/
def EXIT_SUCCESS : Int := 0

/-- The macro `EXIT_FAILURE` of `<stdlib.h>`. -/
def EXIT_FAILURE : Int := 1

/-- The calls and output lines of the program, one constructor per kind of
statement in main.cc. -/
inductive Event where
  | gstInit
  | stdout (text : String)
  | stderr (text : String)
  | createFileSrc
  | createMainLoop
  | createPipeline (name : String)
  | createFileSink
  | setLocation (element : Element) (value : String)
  | getBus (pipeline : Element)
  | addWatch (pipeline : Element)
  | add (bin : Element) (child : RefPtr Element)
  | setState (pipeline : Element) (state : State)
  | link (source : Element) (dest : RefPtr Element)
  | run
  | dispatch (type : MessageType)
  | quit
  | runReturned
  deriving DecidableEq, Repr

/-- The command line of a hosted program: `argv[0]` and what follows it. -/
structure Args where
  argv0 : String
  rest : List String
  deriving DecidableEq, Repr

/-- The value of `argc`. -/
def Args.argc (a : Args) : Nat := a.rest.length + 1

/-- The string `argv[i]`. -/
def Args.get (a : Args) : Nat → String
  | 0 => a.argv0
  | i + 1 => a.rest.getD i ""

/-- What the library answers during one run of the program.
`gstInit` is what `Gst::init(argc, argv)`, which takes both by reference,
leaves after `argv[0]`; `available` tells for which element factories a
`create` call returns an element; `messages` are the messages that arrive on
the pipeline's bus while the main loop runs, in order. -/
structure Env where
  gstInit : List String → List String
  available : String → Bool
  messages : List Message

/-- The callback `on_bus_message` (main.cc lines 8-27), with the global
`mainloop` as its first argument. -/
def on_bus_message (mainloop : RefPtr MainLoop) (message : Message) : Run Event Bool :=
  if message.type = MESSAGE_EOS then
    let t := [Event.stdout "\nEnd of stream\n"]
    match mainloop with
    | none => ⟨t, Outcome.nullDeref⟩
    | some _ => ⟨t ++ [Event.quit], Outcome.returned false⟩
  else if message.type = MESSAGE_ERROR then
    let t := [Event.stderr "Error.\n"]
    match mainloop with
    | none => ⟨t, Outcome.nullDeref⟩
    | some _ => ⟨t ++ [Event.quit], Outcome.returned false⟩
  else
    ⟨[], Outcome.returned true⟩

/-- Modelled from the spec: `Glib::MainLoop::run` and the bus watch are not
under src/; the program "runs an event loop until end-of-stream or error".
Each arriving message is handed to the watch while the watch is installed; a
watch that returns false is removed; the loop returns after the dispatch in
which `quit` was called and waits for ever when no message is left. -/
def run_loop (watch : Message → Run Event Bool) (installed : Bool) :
    List Message → Run Event Unit
  | [] => ⟨[], Outcome.blocked⟩
  | m :: rest =>
    if installed then
      let r := watch m
      let t := Event.dispatch m.type :: r.trace
      match r.outcome with
      | Outcome.returned keep =>
        if Event.quit ∈ r.trace then ⟨t ++ [Event.runReturned], Outcome.returned ()⟩
        else
          let r2 := run_loop watch keep rest
          ⟨t ++ r2.trace, r2.outcome⟩
      | Outcome.nullDeref => ⟨t, Outcome.nullDeref⟩
      | Outcome.assertFailed => ⟨t, Outcome.assertFailed⟩
      | Outcome.blocked => ⟨t, Outcome.blocked⟩
    else run_loop watch false rest

/-- The command line as `main` sees it after `Gst::init(argc, argv)`. -/
def init_args (env : Env) (cmdline : Args) : Args :=
  ⟨cmdline.argv0, env.gstInit cmdline.rest⟩

/-- The function `main` (main.cc lines 29-70). -/
def main (env : Env) (cmdline : Args) : Run Event Int :=
  let argv := init_args env cmdline
  let t := [Event.gstInit]
  if argv.argc < 3 then
    ⟨t ++ [Event.stdout ("Usage: " ++ argv.get 0 ++ " <input ogg file> <output ogg file>\n")],
      Outcome.returned EXIT_FAILURE⟩
  else
  let t := t ++ [Event.createFileSrc]
  match create_element env.available "filesrc" none with
  | none =>
    ⟨t ++ [Event.stderr "The FileSrc element could not be created.\n"],
      Outcome.returned EXIT_FAILURE⟩
  | some filesrc =>
  let t := t ++ [Event.setLocation filesrc (argv.get 1)]
  let mainloop : RefPtr MainLoop := some MainLoop.mk
  let t := t ++ [Event.createMainLoop]
  let pipeline := create_element env.available "pipeline" (some "rewriter")
  let t := t ++ [Event.createPipeline "rewriter"]
  let filesink := create_element env.available "filesink" none
  let t := t ++ [Event.createFileSink]
  match filesink with
  | none => ⟨t, Outcome.nullDeref⟩
  | some sink =>
  let t := t ++ [Event.setLocation sink (argv.get 2)]
  match pipeline with
  | none => ⟨t, Outcome.nullDeref⟩
  | some pipe =>
  let t := t ++ [Event.getBus pipe, Event.addWatch pipe]
  let t := t ++ [Event.add pipe (some filesrc), Event.add pipe filesink]
  let t := t ++ [Event.stdout "Setting to PLAYING.\n"]
  let t := t ++ [Event.setState pipe State.STATE_PLAYING]
  let t := t ++ [Event.link filesrc filesink]
  let t := t ++ [Event.stdout "Running.\n"]
  let t := t ++ [Event.run]
  let loop := run_loop (on_bus_message mainloop) true env.messages
  let t := t ++ loop.trace
  match loop.outcome with
  | Outcome.nullDeref => ⟨t, Outcome.nullDeref⟩
  | Outcome.assertFailed => ⟨t, Outcome.assertFailed⟩
  | Outcome.blocked => ⟨t, Outcome.blocked⟩
  | Outcome.returned _ =>
  let t := t ++ [Event.stdout "Returned. Setting state to NULL.\n"]
  let t := t ++ [Event.setState pipe State.STATE_NULL]
  ⟨t, Outcome.returned EXIT_SUCCESS⟩

/-- An event that creates an element, a pipeline or a main loop. -/
def Event.isCreation : Event → Bool
  | Event.createFileSrc => true
  | Event.createMainLoop => true
  | Event.createPipeline _ => true
  | Event.createFileSink => true
  | _ => false

/-- An event that changes a pipeline's state. -/
def Event.isSetState : Event → Bool
  | Event.setState _ _ => true
  | _ => false

end OggRewriter

/-! ## tests/regression/pluginbin.h -/

namespace PluginBinFixture

open Gst

/-- The C enum `Gst::StateChange`; a transition from state `cur` to state
`next` has the value `(cur << 3) | next`. -/
abbrev StateChange := Nat

/-- Modelled from the spec: the enumerator is declared in the wrapper's
headers, which are not under src/; it is `(STATE_NULL << 3) | STATE_READY`
with `STATE_NULL = 1` and `STATE_READY = 2`. -/
def STATE_CHANGE_NULL_TO_READY : StateChange := 10

/-- The C enum `Gst::StateChangeReturn`; the values are kept as numbers. -/
abbrev StateChangeReturn := Nat

/-- A `Gst::GhostPad`, known by the name it was created with. -/
structure GhostPad where
  name : String
  deriving DecidableEq, Repr

/-- The data members of a `PluginBin` object.  The member `srcpad` is
assigned once, in the constructor, from `GhostPad::create`; it is kept as
the pad itself. -/
structure PluginBin where
  srcpad : GhostPad
  location : String
  deriving DecidableEq, Repr

/-- The calls a `PluginBin` issues, one constructor per kind of statement
in pluginbin.h. -/
inductive Event where
  | addPad (pad : GhostPad)
  | createFileSrc (name : String)
  | createElement (factory : String)
  | setLocation (element : Element) (value : String)
  | add (child : RefPtr Element)
  | link (source : Element) (dest : RefPtr Element)
  | setTarget (ghost : GhostPad) (target : RefPtr Pad)
  | baseChangeState (transition : StateChange)
  deriving DecidableEq, Repr

/-- What the library answers during one call of `change_state_vfunc`:
`available` tells for which element factories a `create` call returns an
element, `base` is what `Bin::change_state_vfunc` returns. -/
structure Env where
  available : String → Bool
  base : StateChange → StateChangeReturn

/-- Modelled from the spec: `Element::get_static_pad` is not under src/; the
pad is known by its owner and its name. -/
def get_static_pad (element : Element) (name : String) : RefPtr Pad :=
  some ⟨element, name⟩

/-- The constructor `PluginBin::PluginBin` (pluginbin.h lines 33-40): the
`location` property starts empty and the ghost pad "src" is created without
a target and added to the bin. -/
def PluginBin.new : Run Event PluginBin :=
  let srcpad : GhostPad := ⟨"src"⟩
  ⟨[Event.addPad srcpad], Outcome.returned { srcpad := srcpad, location := "" }⟩

/-- The method `PluginBin::change_state_vfunc` (pluginbin.h lines 52-69). -/
def change_state_vfunc (env : Env) (self : PluginBin) (transition : StateChange) :
    Run Event StateChangeReturn :=
  let finish (t : List Event) : Run Event StateChangeReturn :=
    ⟨t ++ [Event.baseChangeState transition], Outcome.returned (env.base transition)⟩
  if transition = STATE_CHANGE_NULL_TO_READY then
    let source_file := create_element env.available "filesrc" (some "source-file")
    let t := [Event.createFileSrc "source-file"]
    let png_decoder := create_element env.available "pngdec" none
    let t := t ++ [Event.createElement "pngdec"]
    let _str := "resources/input-image.png"
    match source_file with
    | none => ⟨t, Outcome.nullDeref⟩
    | some source =>
    let t := t ++ [Event.setLocation source self.location]
    let t := t ++ [Event.add source_file]
    let t := t ++ [Event.add png_decoder]
    let t := t ++ [Event.link source png_decoder]
    match png_decoder with
    | none => ⟨t, Outcome.nullDeref⟩
    | some decoder =>
    let t := t ++ [Event.setTarget self.srcpad (get_static_pad decoder "src")]
    finish t
  else
    finish []

/-- An event that adds a child element to the bin. -/
def Event.isAdd : Event → Bool
  | Event.add _ => true
  | _ => false

/-- An event that sets the target of a ghost pad. -/
def Event.isSetTarget : Event → Bool
  | Event.setTarget _ _ => true
  | _ => false

end PluginBinFixture

/-! ## tests/test-caps.cc -/

namespace TestCaps

open Gst

/-- The two kinds of field value the source stores: an `int` and a
`Gst::Fraction(num, den)`. -/
inductive Value where
  | int (v : Int)
  | fraction (num den : Int)
  deriving DecidableEq, Repr

/-- A `Gst::Structure`: a name and its fields in the order they were set. -/
structure Structure where
  name : String
  fields : List (String × Value)
  deriving DecidableEq, Repr

/-- The constructor `Gst::Structure(name)`: no field yet. -/
def Structure.create (name : String) : Structure := ⟨name, []⟩

/-- Modelled from the spec: `Structure::set_field` is not under src/; a field
that exists gets the new value, a new field goes to the end. -/
def Structure.set_field (s : Structure) (field : String) (v : Value) : Structure :=
  if s.fields.any (fun p => p.1 == field) then
    { s with fields := s.fields.map fun p => if p.1 == field then (field, v) else p }
  else
    { s with fields := s.fields ++ [(field, v)] }

/-- A `Gst::Caps`: its structures in order. -/
abbrev Caps := List Structure

/-- Modelled from the spec: `Caps::create(structure)` is not under src/; caps
holding that one structure. -/
def Caps.create (s : Structure) : Caps := [s]

/-- Modelled from the spec: `Caps::append_structure` is not under src/; the
structure goes to the end. -/
def Caps.append_structure (caps : Caps) (s : Structure) : Caps := caps ++ [s]

/-- The call the function issues. -/
inductive Event where
  | link_filtered (e1 : Element) (e2 : RefPtr Element) (caps : Caps)
  deriving DecidableEq, Repr

/-- Whether the library succeeds in linking `e1` to `e2` through `caps`. -/
structure Env where
  link_filtered : Element → RefPtr Element → Caps → Bool

/-- The function `link_elements_with_filter` (test-caps.cc lines 28-44); the
result of the filtered link is converted to `int`. -/
def link_elements_with_filter (env : Env) (e1 e2 : RefPtr Element) : Run Event Int :=
  let structure1 := Structure.create "video/x-raw-yuv"
  let structure1 := structure1.set_field "width" (Value.int 384)
  let structure1 := structure1.set_field "height" (Value.int 288)
  let structure1 := structure1.set_field "framerate" (Value.fraction 25 1)
  let caps := Caps.create structure1
  let structure2 := Structure.create "video/x-raw-rgb"
  let structure2 := structure2.set_field "width" (Value.int 384)
  let structure2 := structure2.set_field "height" (Value.int 288)
  let structure2 := structure2.set_field "framerate" (Value.fraction 25 1)
  let caps := Caps.append_structure caps structure2
  match e1 with
  | none => ⟨[], Outcome.nullDeref⟩
  | some source =>
    ⟨[Event.link_filtered source e2 caps],
      Outcome.returned (if env.link_filtered source e2 caps then 1 else 0)⟩

end TestCaps

/-! ## Theorems: tests/plugins/test-foo.h -/

namespace TestFoo

open Gst

theorem insertByte_perm (b : Byte) (l : List Byte) : (insertByte b l).Perm (b :: l) := by
  induction l with
  | nil => exact List.Perm.refl _
  | cons a rest ih =>
    unfold insertByte
    split
    · exact List.Perm.refl _
    · exact (List.Perm.cons a ih).trans (List.Perm.swap b a rest)

theorem std_sort_perm (l : List Byte) : (std_sort l).Perm l := by
  induction l with
  | nil => exact List.Perm.refl _
  | cons a rest ih =>
    unfold std_sort
    exact (insertByte_perm a _).trans (List.Perm.cons a ih)

theorem insertByte_sorted (b : Byte) (l : List Byte) (h : l.Sorted (· ≤ ·)) :
    (insertByte b l).Sorted (· ≤ ·) := by
  induction l with
  | nil => simp [insertByte]
  | cons a rest ih =>
    have hrest : rest.Sorted (· ≤ ·) := h.of_cons
    have ha : ∀ x ∈ rest, a ≤ x := List.rel_of_sorted_cons h
    unfold insertByte
    split
    · rename_i hlt
      exact List.sorted_cons.mpr ⟨fun x hx => by
        rcases List.mem_cons.mp hx with rfl | hx
        · exact le_of_lt hlt
        · exact le_trans (le_of_lt hlt) (ha x hx), h⟩
    · rename_i hnlt
      refine List.sorted_cons.mpr ⟨fun x hx => ?_, ih hrest⟩
      have hx2 : x ∈ b :: rest := (insertByte_perm b rest).subset hx
      rcases List.mem_cons.mp hx2 with rfl | hx2
      · exact le_of_not_lt hnlt
      · exact ha x hx2

theorem std_sort_sorted (l : List Byte) : (std_sort l).Sorted (· ≤ ·) := by
  induction l with
  | nil => simp [std_sort]
  | cons a rest ih =>
    unfold std_sort
    exact insertByte_sorted a _ ih

theorem sort_range_full (data : List Byte) : sort_range data data.length = std_sort data := by
  simp [sort_range]

theorem create_writable_refcount (buf : Buffer) : (create_writable buf).refcount = 1 := by
  unfold create_writable
  split <;> simp_all

theorem create_writable_data (buf : Buffer) : (create_writable buf).data = buf.data := by
  unfold create_writable
  split <;> rfl

/-- The run of `chain` in closed form: the asserts hold, the buffer pushed is
the writable buffer with its data sorted, and the result is the push's. -/
theorem chain_eq (env : Env) (buf : Buffer) :
    chain env buf =
      ⟨[Event.push ⟨std_sort buf.data, 1⟩],
        Outcome.returned (env.push ⟨std_sort buf.data, 1⟩)⟩ := by
  have h1 := create_writable_refcount buf
  have h2 := create_writable_data buf
  simp [chain, map, unmap, MapInfo.new, h1, h2, sort_range_full]

/-- C1: for every input buffer, `chain` pushes a buffer whose data has the
length of the input data, is a permutation of the input bytes and is in
non-decreasing order of byte value. -/
theorem chain_pushes_sorted_permutation (env : Env) (buf : Buffer) :
    ∃ out : Buffer, pushed (chain env buf) = [out] ∧
      out.data.length = buf.data.length ∧
      out.data.Perm buf.data ∧
      out.data.Sorted (· ≤ ·) := by
  refine ⟨⟨std_sort buf.data, 1⟩, ?_, ?_, ?_, ?_⟩
  · rw [chain_eq]; rfl
  · exact (std_sort_perm buf.data).length_eq
  · exact std_sort_perm buf.data
  · exact std_sort_sorted buf.data

/-- C9: for every input buffer and every answer of the peer, `chain` pushes
exactly one buffer on the source pad and returns the `FlowReturn` of that
push. -/
theorem chain_returns_push_result (env : Env) (buf : Buffer) :
    ∃ out : Buffer, (chain env buf).trace = [Event.push out] ∧
      (chain env buf).outcome = Outcome.returned (env.push out) := by
  refine ⟨⟨std_sort buf.data, 1⟩, ?_, ?_⟩ <;> rw [chain_eq]

end TestFoo

/-! ## Theorems: examples/ogg_rewriter/main.cc -/

namespace OggRewriter

open Gst

/-- The watch in closed form when the global `mainloop` holds a loop. -/
theorem on_bus_message_eq (ml : MainLoop) (message : Message) :
    on_bus_message (some ml) message =
      if message.type = MESSAGE_EOS then
        ⟨[Event.stdout "\nEnd of stream\n", Event.quit], Outcome.returned false⟩
      else if message.type = MESSAGE_ERROR then
        ⟨[Event.stderr "Error.\n", Event.quit], Outcome.returned false⟩
      else ⟨[], Outcome.returned true⟩ := by
  unfold on_bus_message
  split
  · rfl
  · split <;> rfl

theorem last_of_append_pair {α : Type} (l : List α) (a b : α) :
    (l ++ [a, b]).getLast? = some b := by
  have h : l ++ [a, b] = (l ++ [a]) ++ [b] := by simp
  rw [h, List.getLast?_append]
  rfl

theorem MESSAGE_ERROR_ne_MESSAGE_EOS : MESSAGE_ERROR ≠ MESSAGE_EOS := by decide

/-- C2: for every bus message, `on_bus_message` calls `quit` on the main loop
and returns false exactly when the message type is `MESSAGE_EOS` or
`MESSAGE_ERROR`, and it returns true without calling `quit` exactly when the
type is any other. -/
theorem on_bus_message_quits_iff_eos_or_error (ml : MainLoop) (message : Message) :
    ((Event.quit ∈ (on_bus_message (some ml) message).trace ∧
        (on_bus_message (some ml) message).outcome = Outcome.returned false) ↔
      (message.type = MESSAGE_EOS ∨ message.type = MESSAGE_ERROR)) ∧
    ((Event.quit ∉ (on_bus_message (some ml) message).trace ∧
        (on_bus_message (some ml) message).outcome = Outcome.returned true) ↔
      ¬(message.type = MESSAGE_EOS ∨ message.type = MESSAGE_ERROR)) := by
  rw [on_bus_message_eq]
  by_cases h1 : message.type = MESSAGE_EOS
  · simp [h1]
  · by_cases h2 : message.type = MESSAGE_ERROR
    · simp [h2, MESSAGE_ERROR_ne_MESSAGE_EOS]
    · simp [h1, h2]

/-- The loop returns whenever its trace records a return. -/
theorem run_loop_returned (ml : MainLoop) (msgs : List Message) :
    ∀ installed : Bool,
      Event.runReturned ∈ (run_loop (on_bus_message (some ml)) installed msgs).trace →
      (run_loop (on_bus_message (some ml)) installed msgs).outcome = Outcome.returned () := by
  induction msgs with
  | nil => intro installed h; simp [run_loop] at h
  | cons m rest ih =>
    intro installed h
    cases installed with
    | false =>
      simp only [run_loop, Bool.false_eq_true, if_false] at h ⊢
      exact ih false h
    | true =>
      rw [run_loop, on_bus_message_eq] at h ⊢
      by_cases h1 : m.type = MESSAGE_EOS
      · simp [h1]
      · by_cases h2 : m.type = MESSAGE_ERROR
        · simp [h2, MESSAGE_ERROR_ne_MESSAGE_EOS]
        · simp [h1, h2] at h ⊢
          exact ih true h

/-- The loop returns as soon as an end-of-stream or error message arrives. -/
theorem run_loop_returns_of_eos_or_error (ml : MainLoop) (msgs : List Message)
    (h : ∃ m ∈ msgs, m.type = MESSAGE_EOS ∨ m.type = MESSAGE_ERROR) :
    (run_loop (on_bus_message (some ml)) true msgs).outcome = Outcome.returned () ∧
    Event.runReturned ∈ (run_loop (on_bus_message (some ml)) true msgs).trace := by
  induction msgs with
  | nil => simp at h
  | cons m rest ih =>
    rw [run_loop, on_bus_message_eq]
    by_cases h1 : m.type = MESSAGE_EOS
    · simp [h1]
    · by_cases h2 : m.type = MESSAGE_ERROR
      · simp [h2, MESSAGE_ERROR_ne_MESSAGE_EOS]
      · have hrest : ∃ m ∈ rest, m.type = MESSAGE_EOS ∨ m.type = MESSAGE_ERROR := by
          obtain ⟨x, hx, hxt⟩ := h
          rcases List.mem_cons.mp hx with rfl | hx
          · rcases hxt with hxt | hxt
            · exact absurd hxt h1
            · exact absurd hxt h2
          · exact ⟨x, hx, hxt⟩
        simp [h1, h2]
        exact ih hrest

/-- The run of `main` when the command line is long enough and the three
elements are created: the calls up to `run`, the loop, and the shutdown when
the loop returns. -/
theorem main_of_created (env : Env) (cmdline : Args)
    (hargc : 3 ≤ (init_args env cmdline).argc)
    (hsrc : env.available "filesrc" = true)
    (hpipe : env.available "pipeline" = true)
    (hsink : env.available "filesink" = true) :
    main env cmdline =
      match (run_loop (on_bus_message (some MainLoop.mk)) true env.messages).outcome with
      | Outcome.returned _ =>
        ⟨[Event.gstInit, Event.createFileSrc,
          Event.setLocation ⟨"filesrc", none⟩ ((init_args env cmdline).get 1),
          Event.createMainLoop, Event.createPipeline "rewriter", Event.createFileSink,
          Event.setLocation ⟨"filesink", none⟩ ((init_args env cmdline).get 2),
          Event.getBus ⟨"pipeline", some "rewriter"⟩,
          Event.addWatch ⟨"pipeline", some "rewriter"⟩,
          Event.add ⟨"pipeline", some "rewriter"⟩ (some ⟨"filesrc", none⟩),
          Event.add ⟨"pipeline", some "rewriter"⟩ (some ⟨"filesink", none⟩),
          Event.stdout "Setting to PLAYING.\n",
          Event.setState ⟨"pipeline", some "rewriter"⟩ State.STATE_PLAYING,
          Event.link ⟨"filesrc", none⟩ (some ⟨"filesink", none⟩),
          Event.stdout "Running.\n", Event.run] ++
          (run_loop (on_bus_message (some MainLoop.mk)) true env.messages).trace ++
          [Event.stdout "Returned. Setting state to NULL.\n",
           Event.setState ⟨"pipeline", some "rewriter"⟩ State.STATE_NULL],
          Outcome.returned EXIT_SUCCESS⟩
      | other =>
        ⟨[Event.gstInit, Event.createFileSrc,
          Event.setLocation ⟨"filesrc", none⟩ ((init_args env cmdline).get 1),
          Event.createMainLoop, Event.createPipeline "rewriter", Event.createFileSink,
          Event.setLocation ⟨"filesink", none⟩ ((init_args env cmdline).get 2),
          Event.getBus ⟨"pipeline", some "rewriter"⟩,
          Event.addWatch ⟨"pipeline", some "rewriter"⟩,
          Event.add ⟨"pipeline", some "rewriter"⟩ (some ⟨"filesrc", none⟩),
          Event.add ⟨"pipeline", some "rewriter"⟩ (some ⟨"filesink", none⟩),
          Event.stdout "Setting to PLAYING.\n",
          Event.setState ⟨"pipeline", some "rewriter"⟩ State.STATE_PLAYING,
          Event.link ⟨"filesrc", none⟩ (some ⟨"filesink", none⟩),
          Event.stdout "Running.\n", Event.run] ++
          (run_loop (on_bus_message (some MainLoop.mk)) true env.messages).trace,
          match other with
          | Outcome.returned _ => Outcome.returned EXIT_SUCCESS
          | Outcome.nullDeref => Outcome.nullDeref
          | Outcome.assertFailed => Outcome.assertFailed
          | Outcome.blocked => Outcome.blocked⟩ := by
  have hlt : ¬ (init_args env cmdline).argc < 3 := by omega
  simp only [main, create_element, hsrc, hpipe, hsink, hlt, if_true, if_false]
  cases (run_loop (on_bus_message (some MainLoop.mk)) true env.messages).outcome <;> simp

/-- C3: when `argc < 3` at the test of line 34, `main` runs `Gst::init`,
prints the usage line and returns `EXIT_FAILURE`; it creates no element,
pipeline or main loop and changes no pipeline state. -/
theorem main_usage_on_short_command_line (env : Env) (cmdline : Args)
    (hargc : (init_args env cmdline).argc < 3) :
    main env cmdline =
      ⟨[Event.gstInit,
        Event.stdout ("Usage: " ++ cmdline.argv0 ++ " <input ogg file> <output ogg file>\n")],
        Outcome.returned EXIT_FAILURE⟩ ∧
    (∀ e ∈ (main env cmdline).trace, e.isCreation = false ∧ e.isSetState = false) := by
  have hmain : main env cmdline =
      ⟨[Event.gstInit,
        Event.stdout ("Usage: " ++ cmdline.argv0 ++ " <input ogg file> <output ogg file>\n")],
        Outcome.returned EXIT_FAILURE⟩ := by
    simp only [main, hargc, if_true]
    rfl
  refine ⟨hmain, ?_⟩
  rw [hmain]
  intro e he
  simp only [List.mem_cons, List.mem_singleton, List.not_mem_nil, or_false] at he
  rcases he with rfl | rfl <;> exact ⟨rfl, rfl⟩

theorem main_usage_on_short_command_line_witness :
    (init_args ⟨id, fun _ => true, []⟩ ⟨"ogg_rewriter", ["in.ogg"]⟩).argc < 3 ∧
    main ⟨id, fun _ => true, []⟩ ⟨"ogg_rewriter", ["in.ogg"]⟩ =
      ⟨[Event.gstInit,
        Event.stdout "Usage: ogg_rewriter <input ogg file> <output ogg file>\n"],
        Outcome.returned EXIT_FAILURE⟩ :=
  ⟨by decide,
    (main_usage_on_short_command_line ⟨id, fun _ => true, []⟩ ⟨"ogg_rewriter", ["in.ogg"]⟩
      (by decide)).1⟩

/-- The check that exists: when `argc >= 3` and the creation of the FileSrc
returns null, `main` prints a message on stderr and returns `EXIT_FAILURE`
without touching the null object. -/
theorem main_null_filesrc_is_reported (env : Env) (cmdline : Args)
    (hargc : 3 ≤ (init_args env cmdline).argc)
    (hsrc : env.available "filesrc" = false) :
    main env cmdline =
      ⟨[Event.gstInit, Event.createFileSrc,
        Event.stderr "The FileSrc element could not be created.\n"],
        Outcome.returned EXIT_FAILURE⟩ := by
  have hlt : ¬ (init_args env cmdline).argc < 3 := by omega
  simp [main, create_element, hsrc, hlt]

/-- C4 (the code at the failing input): with two file arguments and a FileSrc
that is created, a FileSink whose creation returns null is not reported:
`main` prints no message and returns no exit status, the run ends where line
53 applies `->` to the null FileSink.  A null Pipeline ends the run in the
same way on line 55. -/
theorem main_unchecked_null_is_dereferenced :
    main ⟨id, fun f => f != "filesink", []⟩ ⟨"ogg_rewriter", ["in.ogg", "out.ogg"]⟩ =
      ⟨[Event.gstInit, Event.createFileSrc,
        Event.setLocation ⟨"filesrc", none⟩ "in.ogg",
        Event.createMainLoop, Event.createPipeline "rewriter", Event.createFileSink],
        Outcome.nullDeref⟩ ∧
    main ⟨id, fun f => f != "pipeline", []⟩ ⟨"ogg_rewriter", ["in.ogg", "out.ogg"]⟩ =
      ⟨[Event.gstInit, Event.createFileSrc,
        Event.setLocation ⟨"filesrc", none⟩ "in.ogg",
        Event.createMainLoop, Event.createPipeline "rewriter", Event.createFileSink,
        Event.setLocation ⟨"filesink", none⟩ "out.ogg"],
        Outcome.nullDeref⟩ := by
  decide

/-- C7 (counterexample): with `argc = 3` and a FileSrc that is created, a
null FileSink ends the run before the sink's location is set and before the
loop is run, and a null Pipeline ends it before anything is added, linked or
run. -/
theorem main_null_sink_or_pipeline_never_runs :
    (3 ≤ (init_args ⟨id, fun f => f != "filesink", [⟨MESSAGE_EOS⟩]⟩
        ⟨"ogg_rewriter", ["in.ogg", "out.ogg"]⟩).argc ∧
      create_element (fun f => f != "filesink") "filesrc" none = some ⟨"filesrc", none⟩ ∧
      (main ⟨id, fun f => f != "filesink", [⟨MESSAGE_EOS⟩]⟩
        ⟨"ogg_rewriter", ["in.ogg", "out.ogg"]⟩).outcome = Outcome.nullDeref ∧
      Event.setLocation ⟨"filesink", none⟩ "out.ogg" ∉
        (main ⟨id, fun f => f != "filesink", [⟨MESSAGE_EOS⟩]⟩
          ⟨"ogg_rewriter", ["in.ogg", "out.ogg"]⟩).trace ∧
      Event.run ∉
        (main ⟨id, fun f => f != "filesink", [⟨MESSAGE_EOS⟩]⟩
          ⟨"ogg_rewriter", ["in.ogg", "out.ogg"]⟩).trace) ∧
    (3 ≤ (init_args ⟨id, fun f => f != "pipeline", [⟨MESSAGE_EOS⟩]⟩
        ⟨"ogg_rewriter", ["in.ogg", "out.ogg"]⟩).argc ∧
      create_element (fun f => f != "pipeline") "filesrc" none = some ⟨"filesrc", none⟩ ∧
      (main ⟨id, fun f => f != "pipeline", [⟨MESSAGE_EOS⟩]⟩
        ⟨"ogg_rewriter", ["in.ogg", "out.ogg"]⟩).outcome = Outcome.nullDeref ∧
      Event.link ⟨"filesrc", none⟩ (some ⟨"filesink", none⟩) ∉
        (main ⟨id, fun f => f != "pipeline", [⟨MESSAGE_EOS⟩]⟩
          ⟨"ogg_rewriter", ["in.ogg", "out.ogg"]⟩).trace ∧
      Event.run ∉
        (main ⟨id, fun f => f != "pipeline", [⟨MESSAGE_EOS⟩]⟩
          ⟨"ogg_rewriter", ["in.ogg", "out.ogg"]⟩).trace) := by
  decide

/-- C7 (amended): when `argc >= 3` and the FileSrc, the Pipeline and the
FileSink are all created, `main` sets the source's location to `argv[1]` and
the sink's to `argv[2]`, adds both to the pipeline "rewriter", links the
source to the sink and then runs the main loop; the only state set before
the loop runs is `STATE_PLAYING`, so `STATE_NULL` is set after it. -/
theorem main_builds_links_then_runs (env : Env) (cmdline : Args)
    (hargc : 3 ≤ (init_args env cmdline).argc)
    (hsrc : env.available "filesrc" = true)
    (hpipe : env.available "pipeline" = true)
    (hsink : env.available "filesink" = true) :
    ∃ rest : List Event,
      (main env cmdline).trace =
        [Event.gstInit, Event.createFileSrc,
          Event.setLocation ⟨"filesrc", none⟩ ((init_args env cmdline).get 1),
          Event.createMainLoop, Event.createPipeline "rewriter", Event.createFileSink,
          Event.setLocation ⟨"filesink", none⟩ ((init_args env cmdline).get 2),
          Event.getBus ⟨"pipeline", some "rewriter"⟩,
          Event.addWatch ⟨"pipeline", some "rewriter"⟩,
          Event.add ⟨"pipeline", some "rewriter"⟩ (some ⟨"filesrc", none⟩),
          Event.add ⟨"pipeline", some "rewriter"⟩ (some ⟨"filesink", none⟩),
          Event.stdout "Setting to PLAYING.\n",
          Event.setState ⟨"pipeline", some "rewriter"⟩ State.STATE_PLAYING,
          Event.link ⟨"filesrc", none⟩ (some ⟨"filesink", none⟩),
          Event.stdout "Running.\n", Event.run] ++ rest ∧
      (∀ state, Event.setState ⟨"pipeline", some "rewriter"⟩ state ∈ rest →
        state = State.STATE_NULL) := by
  rw [main_of_created env cmdline hargc hsrc hpipe hsink]
  have hloop : ∀ msgs installed state,
      Event.setState ⟨"pipeline", some "rewriter"⟩ state ∉
        (run_loop (on_bus_message (some MainLoop.mk)) installed msgs).trace := by
    intro msgs
    induction msgs with
    | nil => intro installed state; simp [run_loop]
    | cons m tail ih =>
      intro installed state
      cases installed with
      | false =>
        simp only [run_loop, Bool.false_eq_true, if_false]
        exact ih false state
      | true =>
        rw [run_loop, on_bus_message_eq]
        by_cases h1 : m.type = MESSAGE_EOS
        · simp [h1]
        · by_cases h2 : m.type = MESSAGE_ERROR
          · simp [h2, MESSAGE_ERROR_ne_MESSAGE_EOS]
          · simp [h1, h2]
            exact ih true state
  cases hout : (run_loop (on_bus_message (some MainLoop.mk)) true env.messages).outcome with
  | returned v =>
    refine ⟨(run_loop (on_bus_message (some MainLoop.mk)) true env.messages).trace ++
      [Event.stdout "Returned. Setting state to NULL.\n",
       Event.setState ⟨"pipeline", some "rewriter"⟩ State.STATE_NULL], ?_, ?_⟩
    · simp
    · intro state hmem
      rcases List.mem_append.mp hmem with h | h
      · exact absurd h (hloop _ _ _)
      · simp at h
        exact h
  | nullDeref =>
    exact ⟨_, rfl, fun state hmem => absurd hmem (hloop _ _ _)⟩
  | assertFailed =>
    exact ⟨_, rfl, fun state hmem => absurd hmem (hloop _ _ _)⟩
  | blocked =>
    exact ⟨_, rfl, fun state hmem => absurd hmem (hloop _ _ _)⟩

theorem main_builds_links_then_runs_witness :
    ∃ rest : List Event,
      (main ⟨id, fun _ => true, [⟨MESSAGE_EOS⟩]⟩ ⟨"ogg_rewriter", ["in.ogg", "out.ogg"]⟩).trace =
        [Event.gstInit, Event.createFileSrc,
          Event.setLocation ⟨"filesrc", none⟩ "in.ogg",
          Event.createMainLoop, Event.createPipeline "rewriter", Event.createFileSink,
          Event.setLocation ⟨"filesink", none⟩ "out.ogg",
          Event.getBus ⟨"pipeline", some "rewriter"⟩,
          Event.addWatch ⟨"pipeline", some "rewriter"⟩,
          Event.add ⟨"pipeline", some "rewriter"⟩ (some ⟨"filesrc", none⟩),
          Event.add ⟨"pipeline", some "rewriter"⟩ (some ⟨"filesink", none⟩),
          Event.stdout "Setting to PLAYING.\n",
          Event.setState ⟨"pipeline", some "rewriter"⟩ State.STATE_PLAYING,
          Event.link ⟨"filesrc", none⟩ (some ⟨"filesink", none⟩),
          Event.stdout "Running.\n", Event.run] ++ rest ∧
      (∀ state, Event.setState ⟨"pipeline", some "rewriter"⟩ state ∈ rest →
        state = State.STATE_NULL) :=
  main_builds_links_then_runs ⟨id, fun _ => true, [⟨MESSAGE_EOS⟩]⟩
    ⟨"ogg_rewriter", ["in.ogg", "out.ogg"]⟩ (by decide) rfl rfl rfl

/-- C10: when `argc >= 3`, the FileSrc is created and the main loop returns,
`main` returns `EXIT_SUCCESS` and its last call sets the pipeline to
`STATE_NULL`, whichever message ended the loop. -/
theorem main_exit_success_once_loop_returns (env : Env) (cmdline : Args)
    (hargc : 3 ≤ (init_args env cmdline).argc)
    (hsrc : env.available "filesrc" = true)
    (hloop : Event.runReturned ∈ (main env cmdline).trace) :
    (main env cmdline).outcome = Outcome.returned EXIT_SUCCESS ∧
    (main env cmdline).trace.getLast? =
      some (Event.setState ⟨"pipeline", some "rewriter"⟩ State.STATE_NULL) := by
  have hlt : ¬ (init_args env cmdline).argc < 3 := by omega
  by_cases hsink : env.available "filesink" = true
  · by_cases hpipe : env.available "pipeline" = true
    · rw [main_of_created env cmdline hargc hsrc hpipe hsink] at hloop ⊢
      cases hout : (run_loop (on_bus_message (some MainLoop.mk)) true env.messages).outcome with
      | returned v =>
        exact ⟨rfl, last_of_append_pair _ _ _⟩
      | nullDeref =>
        rw [hout] at hloop
        simp at hloop
        have := run_loop_returned MainLoop.mk env.messages true hloop
        rw [hout] at this
        cases this
      | assertFailed =>
        rw [hout] at hloop
        simp at hloop
        have := run_loop_returned MainLoop.mk env.messages true hloop
        rw [hout] at this
        cases this
      | blocked =>
        rw [hout] at hloop
        simp at hloop
        have := run_loop_returned MainLoop.mk env.messages true hloop
        rw [hout] at this
        cases this
    · exfalso
      simp [main, create_element, hsrc, hpipe, hsink, hlt] at hloop
  · exfalso
    simp [main, create_element, hsrc, hsink, hlt] at hloop

theorem main_exit_success_once_loop_returns_witness :
    ((main ⟨id, fun _ => true, [⟨4⟩, ⟨MESSAGE_EOS⟩]⟩
        ⟨"ogg_rewriter", ["in.ogg", "out.ogg"]⟩).outcome = Outcome.returned EXIT_SUCCESS ∧
      (main ⟨id, fun _ => true, [⟨4⟩, ⟨MESSAGE_EOS⟩]⟩
        ⟨"ogg_rewriter", ["in.ogg", "out.ogg"]⟩).trace.getLast? =
        some (Event.setState ⟨"pipeline", some "rewriter"⟩ State.STATE_NULL)) ∧
    ((main ⟨id, fun _ => true, [⟨MESSAGE_ERROR⟩]⟩
        ⟨"ogg_rewriter", ["in.ogg", "out.ogg"]⟩).outcome = Outcome.returned EXIT_SUCCESS ∧
      (main ⟨id, fun _ => true, [⟨MESSAGE_ERROR⟩]⟩
        ⟨"ogg_rewriter", ["in.ogg", "out.ogg"]⟩).trace.getLast? =
        some (Event.setState ⟨"pipeline", some "rewriter"⟩ State.STATE_NULL)) :=
  ⟨main_exit_success_once_loop_returns ⟨id, fun _ => true, [⟨4⟩, ⟨MESSAGE_EOS⟩]⟩
      ⟨"ogg_rewriter", ["in.ogg", "out.ogg"]⟩ (by decide) rfl (by decide),
    main_exit_success_once_loop_returns ⟨id, fun _ => true, [⟨MESSAGE_ERROR⟩]⟩
      ⟨"ogg_rewriter", ["in.ogg", "out.ogg"]⟩ (by decide) rfl (by decide)⟩

end OggRewriter

/-! ## Theorems: tests/regression/pluginbin.h -/

namespace PluginBinFixture

open Gst

/-- The constructor leaves a bin whose ghost pad is named "src". -/
theorem new_srcpad :
    PluginBin.new = ⟨[Event.addPad ⟨"src"⟩], Outcome.returned ⟨⟨"src"⟩, ""⟩⟩ := rfl

/-- C6 (counterexample): when no "pngdec" element can be created, the call
with `STATE_CHANGE_NULL_TO_READY` ends at line 65 on the null decoder; no
element of the "pngdec" factory was added to the bin and the target of the
ghost pad was never set. -/
theorem change_state_without_pngdec :
    (change_state_vfunc ⟨fun f => f == "filesrc", fun _ => 1⟩ ⟨⟨"src"⟩, "in.png"⟩
        STATE_CHANGE_NULL_TO_READY).outcome = Outcome.nullDeref ∧
    (∀ e ∈ (change_state_vfunc ⟨fun f => f == "filesrc", fun _ => 1⟩ ⟨⟨"src"⟩, "in.png"⟩
        STATE_CHANGE_NULL_TO_READY).trace,
      e.isSetTarget = false ∧ e ≠ Event.add (some ⟨"pngdec", none⟩)) := by
  decide

/-- C6 (amended): for every `PluginBin` state, when the creation of the file
source and of the "pngdec" decoder both return an element, the call with
`STATE_CHANGE_NULL_TO_READY` creates a file source named "source-file", sets
its location to the value of the bin's `location` property, adds the source
and the decoder to the bin, links the source to the decoder and sets the
target of the bin's ghost pad to the decoder's static "src" pad, in this
order, before it calls the base class. -/
theorem change_state_null_to_ready (env : Env) (self : PluginBin)
    (hsrc : env.available "filesrc" = true) (hdec : env.available "pngdec" = true) :
    change_state_vfunc env self STATE_CHANGE_NULL_TO_READY =
      ⟨[Event.createFileSrc "source-file", Event.createElement "pngdec",
        Event.setLocation ⟨"filesrc", some "source-file"⟩ self.location,
        Event.add (some ⟨"filesrc", some "source-file"⟩),
        Event.add (some ⟨"pngdec", none⟩),
        Event.link ⟨"filesrc", some "source-file"⟩ (some ⟨"pngdec", none⟩),
        Event.setTarget self.srcpad (some ⟨⟨"pngdec", none⟩, "src"⟩),
        Event.baseChangeState STATE_CHANGE_NULL_TO_READY],
        Outcome.returned (env.base STATE_CHANGE_NULL_TO_READY)⟩ := by
  simp [change_state_vfunc, create_element, get_static_pad, hsrc, hdec]

theorem change_state_null_to_ready_witness :
    change_state_vfunc ⟨fun _ => true, fun _ => 1⟩ ⟨⟨"src"⟩, "in.png"⟩
        STATE_CHANGE_NULL_TO_READY =
      ⟨[Event.createFileSrc "source-file", Event.createElement "pngdec",
        Event.setLocation ⟨"filesrc", some "source-file"⟩ "in.png",
        Event.add (some ⟨"filesrc", some "source-file"⟩),
        Event.add (some ⟨"pngdec", none⟩),
        Event.link ⟨"filesrc", some "source-file"⟩ (some ⟨"pngdec", none⟩),
        Event.setTarget ⟨"src"⟩ (some ⟨⟨"pngdec", none⟩, "src"⟩),
        Event.baseChangeState STATE_CHANGE_NULL_TO_READY],
        Outcome.returned 1⟩ :=
  change_state_null_to_ready ⟨fun _ => true, fun _ => 1⟩ ⟨⟨"src"⟩, "in.png"⟩ rfl rfl

/-- C8 (counterexample): when no file source can be created, the call with
`STATE_CHANGE_NULL_TO_READY` ends at line 59 on the null source; the base
class is not called and no value is returned. -/
theorem change_state_without_filesrc :
    (change_state_vfunc ⟨fun f => f == "pngdec", fun _ => 1⟩ ⟨⟨"src"⟩, "in.png"⟩
        STATE_CHANGE_NULL_TO_READY).outcome = Outcome.nullDeref ∧
    Event.baseChangeState STATE_CHANGE_NULL_TO_READY ∉
      (change_state_vfunc ⟨fun f => f == "pngdec", fun _ => 1⟩ ⟨⟨"src"⟩, "in.png"⟩
        STATE_CHANGE_NULL_TO_READY).trace := by
  decide

/-- C8 (amended): for every transition other than
`STATE_CHANGE_NULL_TO_READY` the only call is the one to the base class (no
child is added, no ghost pad target is set) and the value returned is the
base result; for `STATE_CHANGE_NULL_TO_READY`, when the file source and the
decoder are both created, the value returned is the base result too. -/
theorem change_state_returns_base (env : Env) (self : PluginBin) (transition : StateChange)
    (h : transition ≠ STATE_CHANGE_NULL_TO_READY ∨
      (env.available "filesrc" = true ∧ env.available "pngdec" = true)) :
    (change_state_vfunc env self transition).outcome =
      Outcome.returned (env.base transition) ∧
    (transition ≠ STATE_CHANGE_NULL_TO_READY →
      (change_state_vfunc env self transition).trace = [Event.baseChangeState transition] ∧
      ∀ e ∈ (change_state_vfunc env self transition).trace,
        e.isAdd = false ∧ e.isSetTarget = false) := by
  by_cases ht : transition = STATE_CHANGE_NULL_TO_READY
  · rcases h with h | ⟨hsrc, hdec⟩
    · exact absurd ht h
    · subst ht
      refine ⟨?_, fun hne => absurd rfl hne⟩
      simp [change_state_vfunc, create_element, hsrc, hdec]
  · have hrun : change_state_vfunc env self transition =
        ⟨[Event.baseChangeState transition], Outcome.returned (env.base transition)⟩ := by
      simp [change_state_vfunc, ht]
    rw [hrun]
    refine ⟨rfl, fun _ => ⟨rfl, ?_⟩⟩
    intro e he
    simp only [List.mem_singleton] at he
    subst he
    exact ⟨rfl, rfl⟩

theorem change_state_returns_base_witness :
    ((change_state_vfunc ⟨fun _ => false, fun t => t % 4⟩ ⟨⟨"src"⟩, "in.png"⟩ 19).outcome =
        Outcome.returned 3 ∧
      (change_state_vfunc ⟨fun _ => false, fun t => t % 4⟩ ⟨⟨"src"⟩, "in.png"⟩ 19).trace =
        [Event.baseChangeState 19]) ∧
    (change_state_vfunc ⟨fun _ => true, fun t => t % 4⟩ ⟨⟨"src"⟩, "in.png"⟩
        STATE_CHANGE_NULL_TO_READY).outcome = Outcome.returned 2 :=
  ⟨⟨(change_state_returns_base ⟨fun _ => false, fun t => t % 4⟩ ⟨⟨"src"⟩, "in.png"⟩ 19
        (Or.inl (by decide))).1,
      ((change_state_returns_base ⟨fun _ => false, fun t => t % 4⟩ ⟨⟨"src"⟩, "in.png"⟩ 19
        (Or.inl (by decide))).2 (by decide)).1⟩,
    (change_state_returns_base ⟨fun _ => true, fun t => t % 4⟩ ⟨⟨"src"⟩, "in.png"⟩
      STATE_CHANGE_NULL_TO_READY (Or.inr ⟨rfl, rfl⟩)).1⟩

end PluginBinFixture

/-! ## Theorems: tests/test-caps.cc -/

namespace TestCaps

open Gst

/-- C5: for every pair of elements, `link_elements_with_filter` calls
`link_filtered` exactly once, with caps made of the structure
"video/x-raw-yuv" followed by "video/x-raw-rgb", each with exactly the
fields width = 384, height = 288 and framerate = 25/1; the value returned is
the result of that link, non-zero exactly when the link succeeded. -/
theorem link_elements_with_filter_caps (env : Env) (e1 e2 : Element) :
    ∃ (caps : Caps) (value : Int),
      (link_elements_with_filter env (some e1) (some e2)).trace =
        [Event.link_filtered e1 (some e2) caps] ∧
      caps =
        [⟨"video/x-raw-yuv",
            [("width", Value.int 384), ("height", Value.int 288),
              ("framerate", Value.fraction 25 1)]⟩,
          ⟨"video/x-raw-rgb",
            [("width", Value.int 384), ("height", Value.int 288),
              ("framerate", Value.fraction 25 1)]⟩] ∧
      (link_elements_with_filter env (some e1) (some e2)).outcome = Outcome.returned value ∧
      (value ≠ 0 ↔ env.link_filtered e1 (some e2) caps = true) := by
  refine ⟨_, _, rfl, ?_, rfl, ?_⟩
  · decide
  · split <;> simp_all

end TestCaps
